import Mathlib

/-!
# Verification of the SENT protocol decoder (`sent_decoder.h` / `sent_decoder.cpp`)

A shallow embedding of the SENT (SAE J2716) pulse-stream decoder: the
fast-channel state machine with its three CRC-4 variants, the slow-channel
demultiplexer with CRC-6, the mailbox store, and the statistics counters.

Machine integers are modelled as `Nat` with explicit reduction modulo `2^32`
at every operation where the C `uint32_t` arithmetic can wrap.  The C idiom
`unsigned - int` followed by a store into a signed `int` (used for the
nibble-interval computation) is modelled by `toInt32`, which reinterprets the
wrapped unsigned result as a signed 32-bit value.

The decoder state `sent_channel` becomes a structure; each C member function
becomes a pure function from the structure (plus arguments) to an updated
structure paired with its `int` return value.
-/

set_option maxRecDepth 10000

namespace Sent

/-- Modulus of `uint32_t` arithmetic. -/
def U32 : Nat := 2 ^ 32

/-- `uint32_t` increment: `c++` wraps modulo `2^32`. -/
def inc32 (n : Nat) : Nat := (n + 1) % U32

/-- Reinterpret a wrapped unsigned 32-bit value as a signed `int` (two's complement). -/
def toInt32 (n : Nat) : Int :=
  if n % U32 < 2 ^ 31 then (n % U32 : Int) else (n % U32 : Int) - (U32 : Int)

/-! ## Protocol constants (`sent_decoder.cpp`) -/

def SENT_MSG_DATA_SIZE : Nat := 6
def SENT_MSG_PAYLOAD_SIZE : Nat := 1 + SENT_MSG_DATA_SIZE + 1
def SENT_MSG_TOTAL : Nat := 1 + SENT_MSG_PAYLOAD_SIZE
def SENT_OFFSET_INTERVAL : Nat := 12
def SENT_SYNC_INTERVAL : Nat := 56 - SENT_OFFSET_INTERVAL
def SENT_MAX_INTERVAL : Nat := 15
def SENT_CRC_SEED : Nat := 0x05
def SENT_CALIBRATION_PULSES : Nat := 1 + 3 * SENT_MSG_PAYLOAD_SIZE
def SENT_SLOW_CHANNELS_MAX : Nat := 32
def SENT_FLAG_HW_OVERFLOW : Nat := 1

/-! ## The `SENT_STATE_enum` values (the source advances states by integer increment,
so states are embedded as the corresponding `Nat` ordinals). -/

def SENT_STATE_CALIB : Nat := 0
def SENT_STATE_INIT : Nat := 1
def SENT_STATE_SYNC : Nat := 2
def SENT_STATE_STATUS : Nat := 3
def SENT_STATE_SIG1_DATA1 : Nat := 4
def SENT_STATE_SIG1_DATA2 : Nat := 5
def SENT_STATE_SIG1_DATA3 : Nat := 6
def SENT_STATE_SIG2_DATA1 : Nat := 7
def SENT_STATE_SIG2_DATA2 : Nat := 8
def SENT_STATE_SIG2_DATA3 : Nat := 9
def SENT_STATE_CRC : Nat := 10

/-! ## Message helpers -/

/-- `#define MsgGetNibble(msg, n) (((msg) >> (4 * (7 - (n)))) & 0xf)` -/
def MsgGetNibble (msg n : Nat) : Nat := (msg >>> (4 * (7 - n))) &&& 0xf

/-- `#define MsgGetStat(msg) MsgGetNibble(msg, 0)` -/
def MsgGetStat (msg : Nat) : Nat := MsgGetNibble msg 0

/-- `#define MsgGetSig0(msg) (((msg) >> (4 * 4)) & 0xfff)` -/
def MsgGetSig0 (msg : Nat) : Nat := (msg >>> (4 * 4)) &&& 0xfff

/-- `#define MsgGetSig1(msg) (((msg) >> (1 * 4)) & 0xfff)` -/
def MsgGetSig1 (msg : Nat) : Nat := (msg >>> (1 * 4)) &&& 0xfff

/-- `#define MsgGetCrc(msg) MsgGetNibble(msg, 7)` -/
def MsgGetCrc (msg : Nat) : Nat := MsgGetNibble msg 7

/-- `#define BIT(n) (UINT32_C(1) << (n))` -/
def BIT (n : Nat) : Nat := 1 <<< n

/-! ## CRC primitives -/

/-- The shared CRC-4 nibble lookup table. -/
def CrcLookup : List Nat := [0, 13, 7, 10, 14, 3, 9, 4, 1, 12, 6, 11, 15, 2, 8, 5]

/-- `CrcLookup[crc]` (indices stay below 16 throughout the decoder). -/
def lookupCrc (crc : Nat) : Nat := CrcLookup.getD crc 0

/-- `sent_channel::crc4`: seed `0x5`; for `i = 0..6`, `crc = crc ^ nibble_i` then
`crc = CrcLookup[crc]`. -/
def crc4 (data : Nat) : Nat :=
  (List.range 7).foldl (fun crc i => lookupCrc (crc ^^^ MsgGetNibble data i)) SENT_CRC_SEED

/-- `sent_channel::crc4_gm`: seed `0x5`; for `i = 1..6`, `crc = CrcLookup[crc]` then
`crc = (crc ^ nibble_i) & 0xf`. -/
def crc4_gm (data : Nat) : Nat :=
  (List.range' 1 6).foldl (fun crc i => (lookupCrc crc ^^^ MsgGetNibble data i) &&& 0xf)
    SENT_CRC_SEED

/-- `sent_channel::crc4_gm_v2`: `crc4_gm` followed by one extra table round with zero input. -/
def crc4_gm_v2 (data : Nat) : Nat := lookupCrc (crc4_gm data)

/-- CRC-6 table for poly `0x59`. -/
def crc6_table : List Nat :=
  [ 0, 25, 50, 43, 61, 36, 15, 22, 35, 58, 17,  8, 30,  7, 44, 53,
   31,  6, 45, 52, 34, 59, 16,  9, 60, 37, 14, 23,  1, 24, 51, 42,
   62, 39, 12, 21,  3, 26, 49, 40, 29,  4, 47, 54, 32, 57, 18, 11,
   33, 56, 19, 10, 28,  5, 46, 55,  2, 27, 48, 41, 63, 38, 13, 20]

/-- `sent_channel::crc6`: seed `0x15`; four 6-bit groups then an extra zero round. -/
def crc6 (data : Nat) : Nat :=
  let crc := (List.range 4).foldl
    (fun crc i => ((data >>> (24 - 6 * (i + 1))) &&& 0x3f) ^^^ crc6_table.getD crc 0) 0x15
  0 ^^^ crc6_table.getD crc 0

/-! ## Channel state -/

/-- `struct sent_channel_stat` (all fields `uint32_t`). -/
structure SentChannelStat where
  hwOverflowCnt : Nat
  ShortIntervalErr : Nat
  LongIntervalErr : Nat
  SyncErr : Nat
  CrcErrCnt : Nat
  FrameCnt : Nat
  PauseCnt : Nat
  RestartCnt : Nat
  sc12 : Nat
  sc16 : Nat
  scCrcErr : Nat
  deriving Repr, DecidableEq

/-- One slow-channel mailbox: `{ uint16_t data; uint8_t id; bool valid; }`. -/
structure ScMsg where
  data : Nat
  id : Nat
  valid : Bool
  deriving Repr, DecidableEq

instance : Inhabited ScMsg := ⟨⟨0, 0, false⟩⟩

/-- The `sent_channel` decoder state. -/
structure SentChannel where
  state : Nat
  tickPerUnit : Nat
  pulseCounter : Nat
  currentStatePulseCounter : Nat
  pausePulseReceived : Bool
  rxReg : Nat
  hasValidFast : Bool
  rxLast : Nat
  scShift2 : Nat
  scShift3 : Nat
  scCrcShift : Nat
  scMsg : List ScMsg
  statistic : SentChannelStat
  deriving Repr, DecidableEq

/-- Statistics at construction: all counters zero. -/
def initStat : SentChannelStat :=
  { hwOverflowCnt := 0, ShortIntervalErr := 0, LongIntervalErr := 0, SyncErr := 0
    CrcErrCnt := 0, FrameCnt := 0, PauseCnt := 0, RestartCnt := 0
    sc12 := 0, sc16 := 0, scCrcErr := 0 }

/-- A channel at construction: CALIB state, zero counters, all mailboxes invalid. -/
def initChannel : SentChannel :=
  { state := SENT_STATE_CALIB, tickPerUnit := 0, pulseCounter := 0
    currentStatePulseCounter := 0, pausePulseReceived := false
    rxReg := 0, hasValidFast := false, rxLast := 0
    scShift2 := 0, scShift3 := 0, scCrcShift := 0
    scMsg := List.replicate SENT_SLOW_CHANNELS_MAX ⟨0, 0, false⟩
    statistic := initStat }

/-! ## Slow channel primitives -/

/-- `sent_channel::SlowChannelDecoderReset`: zero `scShift2`/`scShift3` and clear
every mailbox `valid` flag. -/
def SlowChannelDecoderReset (ch : SentChannel) : SentChannel :=
  { ch with scShift2 := 0, scShift3 := 0
            scMsg := ch.scMsg.map (fun m => { m with valid := false }) }

/-- First pass of `StoreSlowChannelValue`: update the first already-valid mailbox
with a matching id, or report that none exists. -/
def storeUpdatePass (id data : Nat) : List ScMsg → Option (List ScMsg)
  | [] => none
  | m :: rest =>
    if m.valid && m.id == id then some ({ m with data := data } :: rest)
    else (storeUpdatePass id data rest).map (m :: ·)

/-- Second pass of `StoreSlowChannelValue`: claim the first `valid == false` slot. -/
def storeAllocPass (id data : Nat) : List ScMsg → Option (List ScMsg)
  | [] => none
  | m :: rest =>
    if m.valid = false then some (⟨data, id, true⟩ :: rest)
    else (storeAllocPass id data rest).map (m :: ·)

/-- `sent_channel::StoreSlowChannelValue(id, data)`: overwrite the matching valid
mailbox, else allocate the first free one, else return `-1`. -/
def StoreSlowChannelValue (msgs : List ScMsg) (id data : Nat) : List ScMsg × Int :=
  match storeUpdatePass id data msgs with
  | some msgs' => (msgs', 0)
  | none =>
    match storeAllocPass id data msgs with
    | some msgs' => (msgs', 0)
    | none => (msgs, -1)

/-- `sent_channel::GetSlowChannelValue(id)`: linear scan for a valid entry. -/
def GetSlowChannelValue (msgs : List ScMsg) (id : Nat) : Int :=
  match msgs.find? (fun m => m.valid && m.id == id) with
  | some m => (m.data : Int)
  | none => -1

/-- The three slow-channel shift registers updated with the two status bits of
`rxLast` (the first statements of `sent_channel::SlowChannelDecoder`). -/
def scShiftStep (ch : SentChannel) : SentChannel :=
  { ch with
    scShift2 := ((ch.scShift2 <<< 1) % U32) |||
                (MsgGetStat ch.rxLast &&& BIT 2 != 0 : Bool).toNat
    scShift3 := ((ch.scShift3 <<< 1) % U32) |||
                (MsgGetStat ch.rxLast &&& BIT 3 != 0 : Bool).toNat
    scCrcShift := (((ch.scCrcShift <<< 2) % U32) |||
                   ((MsgGetStat ch.rxLast &&& BIT 2 != 0 : Bool).toNat <<< 1) |||
                   (MsgGetStat ch.rxLast &&& BIT 3 != 0 : Bool).toNat) % U32 }

/-- The Short Serial Message branch of `SlowChannelDecoder`, on the shifted
channel: `id = (scShift2 >> 12) & 0x0F`, `data = (scShift2 >> 4) & 0xFF`. -/
def scSSM (ch : SentChannel) : SentChannel × Int :=
  ({ ch with scMsg :=
       (StoreSlowChannelValue ch.scMsg ((ch.scShift2 >>> 12) &&& 0x0f)
         ((ch.scShift2 >>> 4) &&& 0xff)).1 },
   (StoreSlowChannelValue ch.scMsg ((ch.scShift2 >>> 12) &&& 0x0f)
     ((ch.scShift2 >>> 4) &&& 0xff)).2)

/-- The Enhanced Serial Message branch of `SlowChannelDecoder`, on the shifted
channel.  The C first increments `sc16`/`sc12` according to the C-flag and then
tests the CRC-6; here the C-flag case split is hoisted outermost, which commutes
with both the counter update and the CRC test. -/
def scESM (ch : SentChannel) : SentChannel × Int :=
  if ch.scShift3 &&& (1 <<< 10) ≠ 0 then
    -- 16 bit message, 4 bit ID
    if (ch.scShift2 >>> 12) &&& 0x3f = crc6 ch.scCrcShift then
      ({ ch with
           statistic := { ch.statistic with sc16 := inc32 ch.statistic.sc16 }
           scMsg := (StoreSlowChannelValue ch.scMsg ((ch.scShift3 >>> 6) &&& 0x0f)
             ((ch.scShift2 &&& 0x0fff) ||| (((ch.scShift3 >>> 1) &&& 0x0f) <<< 12))).1 },
       (StoreSlowChannelValue ch.scMsg ((ch.scShift3 >>> 6) &&& 0x0f)
         ((ch.scShift2 &&& 0x0fff) ||| (((ch.scShift3 >>> 1) &&& 0x0f) <<< 12))).2)
    else
      ({ ch with statistic := { ch.statistic with
           sc16 := inc32 ch.statistic.sc16
           scCrcErr := inc32 ch.statistic.scCrcErr } }, 0)
  else
    -- 12 bit message, 8 bit ID
    if (ch.scShift2 >>> 12) &&& 0x3f = crc6 ch.scCrcShift then
      ({ ch with
           statistic := { ch.statistic with sc12 := inc32 ch.statistic.sc12 }
           scMsg := (StoreSlowChannelValue ch.scMsg
             (((ch.scShift3 >>> 1) &&& 0x0f) ||| ((ch.scShift3 >>> 2) &&& 0xf0))
             (ch.scShift2 &&& 0x0fff)).1 },
       (StoreSlowChannelValue ch.scMsg
         (((ch.scShift3 >>> 1) &&& 0x0f) ||| ((ch.scShift3 >>> 2) &&& 0xf0))
         (ch.scShift2 &&& 0x0fff)).2)
    else
      ({ ch with statistic := { ch.statistic with
           sc12 := inc32 ch.statistic.sc12
           scCrcErr := inc32 ch.statistic.scCrcErr } }, 0)

/-- `sent_channel::SlowChannelDecoder`: shift in the two status bits and test the
Short Serial Message and Enhanced Serial Message framings. -/
def SlowChannelDecoder (ch : SentChannel) : SentChannel × Int :=
  if (scShiftStep ch).scShift3 &&& 0xffff = 0x8000 then
    scSSM (scShiftStep ch)
  else if (scShiftStep ch).scShift3 &&& 0x3f821 = 0x3f000 then
    scESM (scShiftStep ch)
  else
    (scShiftStep ch, 0)

/-! ## Fast channel -/

/-- The statistics effect of `sent_channel::restart`: zero the per-run counters
and bump `RestartCnt` (`hwOverflowCnt` is not reset). -/
def restartStat (st : SentChannelStat) : SentChannelStat :=
  { st with
      ShortIntervalErr := 0, LongIntervalErr := 0, SyncErr := 0, CrcErrCnt := 0
      FrameCnt := 0, PauseCnt := 0, sc12 := 0, sc16 := 0, scCrcErr := 0
      RestartCnt := inc32 st.RestartCnt }

/-- `sent_channel::restart`: back to CALIB, zero runtime state, reset the slow
channel, zero the per-run statistics and bump `RestartCnt`. -/
def restart (ch : SentChannel) : SentChannel :=
  let ch := { ch with state := SENT_STATE_CALIB, pulseCounter := 0
                      currentStatePulseCounter := 0, pausePulseReceived := false
                      tickPerUnit := 0 }
  let ch := SlowChannelDecoderReset ch
  { ch with statistic := restartStat ch.statistic }

/-- `sent_channel::calcTickPerUnit`: integer division with rounding,
`(clocks + 56/2) / 56` in `uint32_t` arithmetic. -/
def calcTickPerUnit (clocks : Nat) : Nat :=
  ((clocks + (SENT_SYNC_INTERVAL + SENT_OFFSET_INTERVAL) / 2) % U32) /
    (SENT_SYNC_INTERVAL + SENT_OFFSET_INTERVAL)

/-- `sent_channel::isSyncPulse`: pulse within ±20% of `56 * tickPerUnit`
(`uint32_t` products wrap). -/
def isSyncPulse (tickPerUnit clocks : Nat) : Bool :=
  let syncClocks := ((SENT_SYNC_INTERVAL + SENT_OFFSET_INTERVAL) * tickPerUnit) % U32
  decide ((100 * clocks) % U32 ≥ (syncClocks * 80) % U32) &&
  decide ((100 * clocks) % U32 ≤ (syncClocks * 120) % U32)

/-- `int interval = (clocks + tickPerUnit / 2) / tickPerUnit - SENT_OFFSET_INTERVAL;`
The subtraction happens in `uint32_t` and is then stored into a signed `int`. -/
def intervalOf (tickPerUnit clocks : Nat) : Int :=
  toInt32 ((((clocks + tickPerUnit / 2) % U32) / tickPerUnit + (U32 - SENT_OFFSET_INTERVAL)) % U32)

/-- The tick-per-unit hypothesis bookkeeping of the CALIB branch (everything in the
CALIB case of `FastChannelDecoder` before the calibration-budget check). -/
def calibAdjust (ch : SentChannel) (clocks : Nat) : SentChannel :=
  if ch.tickPerUnit = 0 ∨ ch.currentStatePulseCounter = 0 then
    { ch with tickPerUnit := calcTickPerUnit clocks, currentStatePulseCounter := 1 }
  else if 0 ≤ intervalOf ch.tickPerUnit clocks ∧
          intervalOf ch.tickPerUnit clocks ≤ (SENT_MAX_INTERVAL : Int) then
    -- `currentStatePulseCounter++`, then the full-frame check against the
    -- incremented value
    if inc32 ch.currentStatePulseCounter = 1 + SENT_MSG_PAYLOAD_SIZE then
      { ch with pulseCounter := 0, currentStatePulseCounter := 0, state := SENT_STATE_INIT }
    else
      { ch with currentStatePulseCounter := inc32 ch.currentStatePulseCounter }
  else
    { ch with currentStatePulseCounter := 1, tickPerUnit := calcTickPerUnit clocks }

/-- The CALIB branch of `FastChannelDecoder` (after `pulseCounter++`). -/
def calibStep (ch : SentChannel) (clocks : Nat) : SentChannel × Int :=
  if (calibAdjust ch clocks).pulseCounter ≥ SENT_CALIBRATION_PULSES then
    (restart (calibAdjust ch clocks), 0)
  else
    (calibAdjust ch clocks, 0)

/-- The INIT branch of `FastChannelDecoder` (after `pulseCounter++`). -/
def initStep (ch : SentChannel) (clocks : Nat) : SentChannel × Int :=
  if isSyncPulse ch.tickPerUnit clocks then
    ({ ch with tickPerUnit := calcTickPerUnit clocks
               pausePulseReceived := ch.currentStatePulseCounter == 1
               currentStatePulseCounter := 0, state := SENT_STATE_STATUS }, 0)
  else if inc32 ch.currentStatePulseCounter ≥ SENT_MSG_TOTAL * 3 then
    -- `currentStatePulseCounter++` then the resync-budget check
    (restart { ch with currentStatePulseCounter := inc32 ch.currentStatePulseCounter }, 0)
  else
    ({ ch with currentStatePulseCounter := inc32 ch.currentStatePulseCounter }, 0)

/-- The SYNC case of the `FastChannelDecoder` switch.  The C increments `SyncErr`
and then one of `LongIntervalErr`/`ShortIntervalErr`; here the two statistic
updates are merged into one record update per branch. -/
def syncStep (ch : SentChannel) (clocks : Nat) (interval : Int) : SentChannel × Int :=
  if isSyncPulse ch.tickPerUnit clocks then
    ({ ch with tickPerUnit := calcTickPerUnit clocks, rxReg := 0
               state := SENT_STATE_STATUS }, 0)
  else if ch.pausePulseReceived then
    if interval > (SENT_SYNC_INTERVAL : Int) then
      ({ ch with
           statistic := { ch.statistic with
                            SyncErr := inc32 ch.statistic.SyncErr
                            LongIntervalErr := inc32 ch.statistic.LongIntervalErr }
           state := SENT_STATE_INIT }, -1)
    else
      ({ ch with
           statistic := { ch.statistic with
                            SyncErr := inc32 ch.statistic.SyncErr
                            ShortIntervalErr := inc32 ch.statistic.ShortIntervalErr }
           state := SENT_STATE_INIT }, -1)
  else
    ({ ch with statistic := { ch.statistic with PauseCnt := inc32 ch.statistic.PauseCnt }
               pausePulseReceived := true }, 0)

/-- `rxReg = (rxReg << 4) | (uint32_t)interval` in `uint32_t` arithmetic. -/
def rxShift (rxReg : Nat) (interval : Int) : Nat :=
  ((rxReg <<< 4) % U32) ||| interval.toNat

/-- The shared STATUS..CRC data-nibble path of the `FastChannelDecoder` switch. -/
def dataStep (ch : SentChannel) (interval : Int) : SentChannel × Int :=
  if interval > (SENT_MAX_INTERVAL : Int) then
    ({ ch with
         statistic := { ch.statistic with LongIntervalErr := inc32 ch.statistic.LongIntervalErr }
         state := SENT_STATE_INIT }, -1)
  else if ch.state ≠ SENT_STATE_CRC then
    -- shift the nibble in and advance by enum arithmetic
    ({ ch with rxReg := rxShift ch.rxReg interval, state := ch.state + 1 }, 0)
  else if MsgGetCrc (rxShift ch.rxReg interval) = crc4 (rxShift ch.rxReg interval) ∨
          MsgGetCrc (rxShift ch.rxReg interval) = crc4_gm (rxShift ch.rxReg interval) ∨
          MsgGetCrc (rxShift ch.rxReg interval) = crc4_gm_v2 (rxShift ch.rxReg interval) then
    -- frame complete: `FrameCnt++`, drop to SYNC, CRC matched
    ({ ch with rxReg := rxShift ch.rxReg interval
               statistic := { ch.statistic with FrameCnt := inc32 ch.statistic.FrameCnt }
               pausePulseReceived := false, state := SENT_STATE_SYNC
               rxLast := rxShift ch.rxReg interval, hasValidFast := true }, 1)
  else
    -- frame complete: `FrameCnt++`, drop to SYNC, CRC mismatch: `CrcErrCnt++`
    ({ ch with rxReg := rxShift ch.rxReg interval
               statistic := { ch.statistic with
                                FrameCnt := inc32 ch.statistic.FrameCnt
                                CrcErrCnt := inc32 ch.statistic.CrcErrCnt }
               pausePulseReceived := false, state := SENT_STATE_SYNC }, -1)

/-- `pulseCounter++` at the top of `FastChannelDecoder`. -/
def pulseInc (ch : SentChannel) : SentChannel :=
  { ch with pulseCounter := inc32 ch.pulseCounter }

/-- The body of `FastChannelDecoder` after `pulseCounter++`. -/
def fastBody (ch : SentChannel) (clocks : Nat) : SentChannel × Int :=
  if ch.state = SENT_STATE_CALIB then
    calibStep ch clocks
  else if ch.state = SENT_STATE_INIT then
    initStep ch clocks
  else if intervalOf ch.tickPerUnit clocks < 0 then
    ({ ch with
         statistic := { ch.statistic with ShortIntervalErr := inc32 ch.statistic.ShortIntervalErr }
         state := SENT_STATE_INIT }, -1)
  else if ch.state = SENT_STATE_SYNC then
    syncStep ch clocks (intervalOf ch.tickPerUnit clocks)
  else if ch.state = SENT_STATE_STATUS ∧ ch.pausePulseReceived = false ∧
          isSyncPulse ch.tickPerUnit clocks then
    ({ ch with tickPerUnit := calcTickPerUnit clocks
               statistic := { ch.statistic with PauseCnt := inc32 ch.statistic.PauseCnt } }, 0)
  else if SENT_STATE_STATUS ≤ ch.state ∧ ch.state ≤ SENT_STATE_CRC then
    dataStep ch (intervalOf ch.tickPerUnit clocks)
  else
    (ch, 0)

/-- `sent_channel::FastChannelDecoder(clocks)`. -/
def FastChannelDecoder (ch : SentChannel) (clocks : Nat) : SentChannel × Int :=
  fastBody (pulseInc ch) clocks

/-- The hardware-overflow flag handling at the top of `sent_channel::Decoder`. -/
def hwStep (ch : SentChannel) (flags : Nat) : SentChannel :=
  if flags &&& SENT_FLAG_HW_OVERFLOW ≠ 0 then
    { ch with statistic :=
        { ch.statistic with hwOverflowCnt := inc32 ch.statistic.hwOverflowCnt } }
  else ch

/-- `sent_channel::Decoder(clocks, flags)`: the public entry point. -/
def Decoder (ch : SentChannel) (clocks flags : Nat) : SentChannel × Int :=
  let ch := hwStep ch flags
  let r := FastChannelDecoder ch clocks
  if r.2 > 0 then ((SlowChannelDecoder r.1).1, r.2)
  else if r.2 < 0 then (SlowChannelDecoderReset r.1, r.2)
  else r

/-- `sent_channel::GetMsg(rx)`: the returned code and the value written to `*rx`. -/
def GetMsg (ch : SentChannel) : Int × Nat :=
  (if ch.hasValidFast = false then -1 else 0, ch.rxLast)

/-- `sent_channel::GetSignals`: `none` models the `-1` early return with the out
parameters unwritten; otherwise the decomposed `(status, sig0, sig1)`. -/
def GetSignals (ch : SentChannel) : Option (Nat × Nat × Nat) :=
  let r := GetMsg ch
  if r.1 < 0 then none
  else
    let rx := r.2
    let tmp1 := MsgGetSig1 rx
    let sig1 := ((tmp1 >>> 8) &&& 0x00f) ||| ((tmp1 <<< 8) &&& 0xf00) ||| (tmp1 &&& 0x0f0)
    some (MsgGetStat rx, MsgGetSig0 rx, sig1)

/-- Run the decoder over a pulse list (no flags), collecting the return values. -/
def runDecoder (ch : SentChannel) : List Nat → SentChannel × List Int
  | [] => (ch, [])
  | c :: rest =>
    let r := Decoder ch c 0
    let rec' := runDecoder r.1 rest
    (rec'.1, r.2 :: rec'.2)

/-- The completed frame word assembled by the CRC-state pulse:
`rxReg = (rxReg << 4) | interval` in `uint32_t` arithmetic. -/
def frameWord (ch : SentChannel) (clocks : Nat) : Nat :=
  rxShift ch.rxReg (intervalOf ch.tickPerUnit clocks)

/-- The sig1 nibble swap exactly as the specification states it:
`((t >> 8) & 0x00F) | (t & 0x0F0) | ((t << 8) & 0xF00)`. -/
def swapSpec (t : Nat) : Nat :=
  ((t >>> 8) &&& 0x00f) ||| (t &&& 0x0f0) ||| ((t <<< 8) &&& 0xf00)

/-! ## Concrete states and pulse sequences used by witnesses and counterexamples

With `tickPerUnit = 3` a sync pulse is `56 * 3 = 168` clocks and a data nibble of
value `v` is `(12 + v) * 3 = 36 + 3v` clocks. -/

/-- One sync-length pulse then eight nibble pulses: takes a freshly constructed
channel through calibration into the INIT state with `tickPerUnit = 3`. -/
def calibPulses : List Nat := 168 :: List.replicate 8 36

/-- Calibration, a sync, then a full 8-nibble frame of zero nibbles whose CRC
nibble `0` matches none of the three CRC-4 variants (which give `5`, `15`, `5`). -/
def c3Pulses : List Nat := calibPulses ++ 168 :: List.replicate 8 36

/-- Calibration followed by 24 non-sync pulses delivered in the INIT state. -/
def c4Pulses : List Nat := calibPulses ++ List.replicate 24 36

/-- Calibration, sync, then the first seven nibbles `0,1,2,3,4,5,6` of a frame. -/
def c8PulsesPre : List Nat := calibPulses ++ [168, 36, 39, 42, 45, 48, 51, 54]

/-- `c8PulsesPre` plus the CRC nibble `2 = crc4(0x01234562)`: a validated frame. -/
def c8Pulses : List Nat := c8PulsesPre ++ [42]

/-- A channel with one valid mailbox entry. -/
def chC2 : SentChannel :=
  { initChannel with scMsg := ⟨7, 3, true⟩ :: List.replicate 31 ⟨0, 0, false⟩ }

/-- A channel awaiting a sync pulse whose pause tolerance is already used up, with
nonzero slow-channel state: the next non-sync pulse is a sync error. -/
def chC5 : SentChannel :=
  { initChannel with state := SENT_STATE_SYNC, tickPerUnit := 3
                     pausePulseReceived := true, scShift2 := 5, scShift3 := 9
                     scMsg := ⟨7, 3, true⟩ :: List.replicate 31 ⟨0, 0, false⟩ }

/-- A channel in the CRC state with seven zero nibbles shifted in. -/
def chW1 : SentChannel :=
  { initChannel with state := SENT_STATE_CRC, tickPerUnit := 3, rxReg := 0 }

/-- A channel in INIT whose resync counter is one short of the restart threshold. -/
def chW4 : SentChannel :=
  { initChannel with state := SENT_STATE_INIT, tickPerUnit := 3
                     currentStatePulseCounter := 26 }

/-- A channel waiting in SYNC with a calibrated tick. -/
def chW8 : SentChannel :=
  { initChannel with state := SENT_STATE_SYNC, tickPerUnit := 3, rxReg := 0xdead }

/-- A channel in the CRC state with nibbles `0,1,2,3,4,5,6` shifted in. -/
def chW8c : SentChannel :=
  { initChannel with state := SENT_STATE_CRC, tickPerUnit := 3, rxReg := 0x0123456 }

/-- A channel holding the validated frame `0x01234565`. -/
def chW7 : SentChannel :=
  { initChannel with hasValidFast := true, rxLast := 0x01234565 }

/-- A channel whose hardware-overflow counter sits at the top 32-bit value. -/
def chC9 : SentChannel :=
  { initChannel with statistic := { initStat with hwOverflowCnt := U32 - 1 } }

/-- 32 valid mailboxes holding the distinct ids `0..31`. -/
def msgsC6 : List ScMsg := (List.range 32).map (fun i => ⟨i, i, true⟩)

/-! ## General helper lemmas -/

theorem inc32_ne (n : Nat) : inc32 n ≠ n := by
  simp only [inc32, U32]
  omega

theorem restart_scMsg (ch : SentChannel) :
    (restart ch).scMsg = ch.scMsg.map (fun m => { m with valid := false }) := rfl

theorem restart_statistic (ch : SentChannel) :
    (restart ch).statistic = restartStat ch.statistic := rfl

/-! ## C2: what `restart` does to the mailbox array -/

/-- C2 counterexample: `restart` does NOT leave the mailbox array unchanged.  On a
channel whose first mailbox is `{data 7, id 3, valid}`, `restart` clears the
`valid` flag of that entry (it calls `SlowChannelDecoderReset`). -/
theorem c2_counterexample :
    chC2.scMsg.headI = ⟨7, 3, true⟩ ∧ (restart chC2).scMsg.headI = ⟨7, 3, false⟩ ∧
    (restart chC2).scMsg ≠ chC2.scMsg := by
  refine ⟨rfl, rfl, ?_⟩
  decide

/-- C2 (amended): `restart` zeroes the runtime decoder state, increments
`RestartCnt`, and also resets the slow channel: `scShift2`/`scShift3` are zeroed
and every mailbox entry keeps its `id` and `data` but has its `valid` flag
cleared. -/
theorem c2_restart_effect (ch : SentChannel) :
    (restart ch).state = SENT_STATE_CALIB ∧
    (restart ch).tickPerUnit = 0 ∧
    (restart ch).pulseCounter = 0 ∧
    (restart ch).currentStatePulseCounter = 0 ∧
    (restart ch).pausePulseReceived = false ∧
    (restart ch).statistic.RestartCnt = inc32 ch.statistic.RestartCnt ∧
    (restart ch).scShift2 = 0 ∧
    (restart ch).scShift3 = 0 ∧
    (restart ch).scMsg = ch.scMsg.map (fun m => { m with valid := false }) :=
  ⟨rfl, rfl, rfl, rfl, rfl, rfl, rfl, rfl, rfl⟩

/-! ## C5: every `-1` return resets the slow channel -/

/-- C5: whenever `Decoder` returns `-1`, the post state has `scShift2 = 0`,
`scShift3 = 0` and every mailbox entry invalid. -/
theorem c5_minus_one_resets_slow_channel (ch : SentChannel) (clocks flags : Nat)
    (h : (Decoder ch clocks flags).2 = -1) :
    (Decoder ch clocks flags).1.scShift2 = 0 ∧
    (Decoder ch clocks flags).1.scShift3 = 0 ∧
    ∀ m ∈ (Decoder ch clocks flags).1.scMsg, m.valid = false := by
  have hres : (Decoder ch clocks flags).1 =
      SlowChannelDecoderReset (FastChannelDecoder (hwStep ch flags) clocks).1 := by
    unfold Decoder at h ⊢
    rcases hfc : FastChannelDecoder (hwStep ch flags) clocks with ⟨ch1, ret⟩
    simp only [hfc] at h ⊢
    by_cases h1 : ret > 0
    · simp only [if_pos h1] at h
      omega
    · by_cases h2 : ret < 0
      · simp [h1, h2]
      · simp only [if_neg h1, if_neg h2] at h
        omega
  rw [hres]
  refine ⟨rfl, rfl, ?_⟩
  intro m hm
  simp only [SlowChannelDecoderReset, List.mem_map] at hm
  obtain ⟨m', _, rfl⟩ := hm
  rfl

/-- C5 witness: a concrete sync error in the SYNC state returns `-1` and leaves the
slow channel cleared. -/
theorem c5_witness :
    (Decoder chC5 36 0).2 = -1 ∧
    ((Decoder chC5 36 0).1.scShift2 = 0 ∧
     (Decoder chC5 36 0).1.scShift3 = 0 ∧
     ∀ m ∈ (Decoder chC5 36 0).1.scMsg, m.valid = false) :=
  ⟨by decide, c5_minus_one_resets_slow_channel chC5 36 0 (by decide)⟩

/-! ## C6: the mailbox store -/

theorem storeUpdatePass_eq (id data : Nat) (msgs : List ScMsg) :
    storeUpdatePass id data msgs =
      (msgs.findIdx? (fun m => m.valid && m.id == id)).map
        (fun i => msgs.set i ⟨data, id, true⟩) := by
  induction msgs with
  | nil => rfl
  | cons m rest ih =>
    by_cases hp : (m.valid && m.id == id) = true
    · obtain ⟨hv, hid⟩ := Bool.and_eq_true_iff.mp hp
      have hid' : m.id = id := beq_iff_eq.mp hid
      cases m
      simp_all [storeUpdatePass, List.findIdx?_cons]
    · simp only [storeUpdatePass, hp, if_neg, Bool.false_eq_true, ite_false, ih,
        List.findIdx?_cons, List.findIdx?_succ]
      cases rest.findIdx? (fun m => m.valid && m.id == id) <;> simp

theorem storeAllocPass_eq (id data : Nat) (msgs : List ScMsg) :
    storeAllocPass id data msgs =
      (msgs.findIdx? (fun m => !m.valid)).map
        (fun i => msgs.set i ⟨data, id, true⟩) := by
  induction msgs with
  | nil => rfl
  | cons m rest ih =>
    by_cases hv : m.valid = false
    · simp [storeAllocPass, List.findIdx?_cons, hv]
    · simp only [storeAllocPass, hv, ite_false, ih, List.findIdx?_cons,
        Bool.not_eq_true', List.findIdx?_succ]
      rw [if_neg (by simp_all)]
      cases rest.findIdx? (fun m => !m.valid) <;> simp

/-- C6: `StoreSlowChannelValue` overwrites the data of the first valid mailbox
with a matching id (which then holds exactly `{data, id, valid}` and nothing else
changes); otherwise it claims the first invalid slot; and when every slot is
valid with a different id it returns `-1` leaving the array untouched — in
particular a 33rd distinct id on a full mailbox array is rejected unchanged. -/
theorem c6_store_slow_channel_value (msgs : List ScMsg) (id data : Nat) :
    (StoreSlowChannelValue msgs id data =
      match msgs.findIdx? (fun m => m.valid && m.id == id) with
      | some i => (msgs.set i ⟨data, id, true⟩, 0)
      | none =>
        match msgs.findIdx? (fun m => !m.valid) with
        | some j => (msgs.set j ⟨data, id, true⟩, 0)
        | none => (msgs, -1)) ∧
    ((∀ m ∈ msgs, m.valid = true ∧ m.id ≠ id) →
      StoreSlowChannelValue msgs id data = (msgs, -1)) := by
  constructor
  · unfold StoreSlowChannelValue
    rw [storeUpdatePass_eq, storeAllocPass_eq]
    cases msgs.findIdx? (fun m => m.valid && m.id == id) <;>
      cases msgs.findIdx? (fun m => !m.valid) <;> rfl
  · intro hfull
    unfold StoreSlowChannelValue
    rw [storeUpdatePass_eq, storeAllocPass_eq]
    have h1 : msgs.findIdx? (fun m => m.valid && m.id == id) = none := by
      rw [List.findIdx?_eq_none_iff]
      intro m hm
      obtain ⟨hv, hid⟩ := hfull m hm
      simp [hv, hid]
    have h2 : msgs.findIdx? (fun m => !m.valid) = none := by
      rw [List.findIdx?_eq_none_iff]
      intro m hm
      simp [(hfull m hm).1]
    rw [h1, h2]
    rfl

/-- C6 witness: with 32 valid mailboxes holding ids `0..31`, storing the distinct
id `40` returns `-1` and leaves the array unchanged. -/
theorem c6_witness : StoreSlowChannelValue msgsC6 40 7 = (msgsC6, -1) :=
  (c6_store_slow_channel_value msgsC6 40 7).2 (by decide)

/-! ## C7: signal extraction and the sig1 nibble swap -/

/-- C7: on a validated channel `GetSignals` emits the status and sig0 fields
untransformed and `sig1 = swapSpec ((rx_last >> 4) & 0xFFF)`; moreover the
nibble swap is an involution on 12-bit values. -/
theorem c7_get_signals_swap (ch : SentChannel) (h : ch.hasValidFast = true) :
    GetSignals ch = some ((ch.rxLast >>> 28) &&& 0xf, (ch.rxLast >>> 16) &&& 0xfff,
      swapSpec ((ch.rxLast >>> 4) &&& 0xfff)) ∧
    ∀ t, t < 4096 → swapSpec (swapSpec t) = t := by
  constructor
  · have hswap : ∀ t : Nat,
        ((t >>> 8) &&& 0x00f) ||| ((t <<< 8) &&& 0xf00) ||| (t &&& 0x0f0) = swapSpec t := by
      intro t
      unfold swapSpec
      rw [Nat.lor_assoc, Nat.lor_comm ((t <<< 8) &&& 0xf00) (t &&& 0x0f0), ← Nat.lor_assoc]
    simp only [GetSignals, GetMsg, h, Bool.true_eq_false, ite_false]
    norm_num
    rw [hswap]
    simp [MsgGetStat, MsgGetNibble, MsgGetSig0, MsgGetSig1]
  · have h16 : ∀ a, a < 16 → ∀ b, b < 16 → ∀ c, c < 16 →
        swapSpec (swapSpec (a + 16 * b + 256 * c)) = a + 16 * b + 256 * c := by decide
    intro t ht
    have hdec : t % 16 + 16 * (t / 16 % 16) + 256 * (t / 256) = t := by omega
    have := h16 (t % 16) (by omega) (t / 16 % 16) (by omega) (t / 256) (by omega)
    rwa [hdec] at this

/-- C7 witness: the frame `0x01234565` decomposes to status `0x0`, `sig0 = 0x123`
and `sig1 = swap(0x456) = 0x654`, and the swap is self-inverse at `0x456`. -/
theorem c7_witness :
    GetSignals chW7 = some (0x0, 0x123, 0x654) ∧ swapSpec (swapSpec 0x456) = 0x456 := by
  have h := c7_get_signals_swap chW7 rfl
  exact ⟨h.1.trans (by decide), h.2 0x456 (by decide)⟩

/-! ## Step-effect lemmas for the fast-channel state machine -/

theorem restart_hasValidFast (ch : SentChannel) :
    (restart ch).hasValidFast = ch.hasValidFast := rfl

theorem calibAdjust_spec (ch : SentChannel) (clocks : Nat) :
    (calibAdjust ch clocks).statistic = ch.statistic ∧
    (calibAdjust ch clocks).hasValidFast = ch.hasValidFast := by
  unfold calibAdjust
  split
  · exact ⟨rfl, rfl⟩
  · split
    · split
      · exact ⟨rfl, rfl⟩
      · exact ⟨rfl, rfl⟩
    · exact ⟨rfl, rfl⟩

theorem calibStep_spec (ch : SentChannel) (clocks : Nat) :
    ((calibStep ch clocks).1.statistic = ch.statistic ∨
     (calibStep ch clocks).1.statistic = restartStat ch.statistic) ∧
    (calibStep ch clocks).1.hasValidFast = ch.hasValidFast ∧
    (calibStep ch clocks).2 = 0 := by
  obtain ⟨hstat, hhvf⟩ := calibAdjust_spec ch clocks
  unfold calibStep
  split
  · exact ⟨Or.inr (by rw [restart_statistic, hstat]), by rw [restart_hasValidFast, hhvf], rfl⟩
  · exact ⟨Or.inl hstat, hhvf, rfl⟩

theorem initStep_spec (ch : SentChannel) (clocks : Nat) :
    ((initStep ch clocks).1.statistic = ch.statistic ∨
     (initStep ch clocks).1.statistic = restartStat ch.statistic) ∧
    (initStep ch clocks).1.hasValidFast = ch.hasValidFast ∧
    (initStep ch clocks).2 = 0 := by
  unfold initStep
  split
  · exact ⟨Or.inl rfl, rfl, rfl⟩
  · split
    · exact ⟨Or.inr rfl, rfl, rfl⟩
    · exact ⟨Or.inl rfl, rfl, rfl⟩

theorem syncStep_spec (ch : SentChannel) (clocks : Nat) (interval : Int) :
    (syncStep ch clocks interval).1.statistic.FrameCnt = ch.statistic.FrameCnt ∧
    (syncStep ch clocks interval).1.statistic.CrcErrCnt = ch.statistic.CrcErrCnt ∧
    (syncStep ch clocks interval).1.statistic.RestartCnt = ch.statistic.RestartCnt ∧
    (syncStep ch clocks interval).1.statistic.hwOverflowCnt = ch.statistic.hwOverflowCnt ∧
    (syncStep ch clocks interval).1.hasValidFast = ch.hasValidFast ∧
    (syncStep ch clocks interval).2 ≠ 1 := by
  unfold syncStep
  split
  · exact ⟨rfl, rfl, rfl, rfl, rfl, by exact (by decide : (0 : Int) ≠ 1)⟩
  · split
    · split
      · exact ⟨rfl, rfl, rfl, rfl, rfl, by exact (by decide : (-1 : Int) ≠ 1)⟩
      · exact ⟨rfl, rfl, rfl, rfl, rfl, by exact (by decide : (-1 : Int) ≠ 1)⟩
    · exact ⟨rfl, rfl, rfl, rfl, rfl, by exact (by decide : (0 : Int) ≠ 1)⟩

theorem dataStep_spec (ch : SentChannel) (interval : Int) :
    ((dataStep ch interval).1.statistic.FrameCnt =
      if (dataStep ch interval).2 = 1 ∨ ((dataStep ch interval).2 = -1 ∧
          (dataStep ch interval).1.statistic.CrcErrCnt ≠ ch.statistic.CrcErrCnt)
      then inc32 ch.statistic.FrameCnt else ch.statistic.FrameCnt) ∧
    (dataStep ch interval).1.statistic.RestartCnt = ch.statistic.RestartCnt ∧
    (dataStep ch interval).1.statistic.hwOverflowCnt = ch.statistic.hwOverflowCnt ∧
    (dataStep ch interval).1.hasValidFast = (ch.hasValidFast || ((dataStep ch interval).2 == 1)) := by
  unfold dataStep
  split
  · refine ⟨?_, rfl, rfl, by simp⟩
    rw [if_neg (by simp)]
  · split
    · refine ⟨?_, rfl, rfl, by simp⟩
      rw [if_neg (by simp)]
    · split
      · refine ⟨?_, rfl, rfl, by simp⟩
        rw [if_pos (Or.inl rfl)]
      · refine ⟨?_, rfl, rfl, by simp⟩
        rw [if_pos (Or.inr ⟨rfl, by exact fun hc => inc32_ne _ hc⟩)]

theorem slowDecoder_spec (ch : SentChannel) :
    (SlowChannelDecoder ch).1.statistic.FrameCnt = ch.statistic.FrameCnt ∧
    (SlowChannelDecoder ch).1.statistic.CrcErrCnt = ch.statistic.CrcErrCnt ∧
    (SlowChannelDecoder ch).1.statistic.RestartCnt = ch.statistic.RestartCnt ∧
    (SlowChannelDecoder ch).1.statistic.hwOverflowCnt = ch.statistic.hwOverflowCnt ∧
    (SlowChannelDecoder ch).1.hasValidFast = ch.hasValidFast := by
  unfold SlowChannelDecoder scSSM scESM
  split
  · exact ⟨rfl, rfl, rfl, rfl, rfl⟩
  · split
    · split
      · split
        · exact ⟨rfl, rfl, rfl, rfl, rfl⟩
        · exact ⟨rfl, rfl, rfl, rfl, rfl⟩
      · split
        · exact ⟨rfl, rfl, rfl, rfl, rfl⟩
        · exact ⟨rfl, rfl, rfl, rfl, rfl⟩
    · exact ⟨rfl, rfl, rfl, rfl, rfl⟩

theorem slowReset_spec (ch : SentChannel) :
    (SlowChannelDecoderReset ch).statistic.FrameCnt = ch.statistic.FrameCnt ∧
    (SlowChannelDecoderReset ch).statistic.CrcErrCnt = ch.statistic.CrcErrCnt ∧
    (SlowChannelDecoderReset ch).statistic.RestartCnt = ch.statistic.RestartCnt ∧
    (SlowChannelDecoderReset ch).statistic.hwOverflowCnt = ch.statistic.hwOverflowCnt ∧
    (SlowChannelDecoderReset ch).hasValidFast = ch.hasValidFast :=
  ⟨rfl, rfl, rfl, rfl, rfl⟩

theorem hwStep_spec (ch : SentChannel) (flags : Nat) :
    (hwStep ch flags).statistic.FrameCnt = ch.statistic.FrameCnt ∧
    (hwStep ch flags).statistic.CrcErrCnt = ch.statistic.CrcErrCnt ∧
    (hwStep ch flags).statistic.RestartCnt = ch.statistic.RestartCnt ∧
    ((hwStep ch flags).statistic.hwOverflowCnt =
      if flags &&& SENT_FLAG_HW_OVERFLOW ≠ 0 then inc32 ch.statistic.hwOverflowCnt
      else ch.statistic.hwOverflowCnt) ∧
    (hwStep ch flags).hasValidFast = ch.hasValidFast := by
  unfold hwStep
  split
  · exact ⟨rfl, rfl, rfl, rfl, rfl⟩
  · exact ⟨rfl, rfl, rfl, rfl, rfl⟩

theorem fastBody_spec (ch : SentChannel) (clocks : Nat) :
    ((fastBody ch clocks).1.statistic.FrameCnt =
      if (fastBody ch clocks).2 = 1 ∨ ((fastBody ch clocks).2 = -1 ∧
          (fastBody ch clocks).1.statistic.CrcErrCnt ≠ ch.statistic.CrcErrCnt)
      then inc32 ch.statistic.FrameCnt
      else if (fastBody ch clocks).1.statistic.RestartCnt ≠ ch.statistic.RestartCnt
      then 0 else ch.statistic.FrameCnt) ∧
    (fastBody ch clocks).1.statistic.hwOverflowCnt = ch.statistic.hwOverflowCnt ∧
    (fastBody ch clocks).1.hasValidFast = (ch.hasValidFast || ((fastBody ch clocks).2 == 1)) := by
  unfold fastBody
  split
  · -- CALIB
    obtain ⟨hstat, hhvf, hret⟩ := calibStep_spec ch clocks
    rw [hret, hhvf]
    rcases hstat with h | h <;> rw [h]
    · refine ⟨?_, rfl, by simp⟩
      rw [if_neg (by simp), if_neg (by simp)]
    · refine ⟨?_, rfl, by simp⟩
      rw [if_neg (by simp), if_pos (by exact fun hc => inc32_ne _ hc)]
      rfl
  · split
    · -- INIT
      obtain ⟨hstat, hhvf, hret⟩ := initStep_spec ch clocks
      rw [hret, hhvf]
      rcases hstat with h | h <;> rw [h]
      · refine ⟨?_, rfl, by simp⟩
        rw [if_neg (by simp), if_neg (by simp)]
      · refine ⟨?_, rfl, by simp⟩
        rw [if_neg (by simp), if_pos (by exact fun hc => inc32_ne _ hc)]
        rfl
    · split
      · -- short interval error
        refine ⟨?_, rfl, by simp⟩
        rw [if_neg (by simp), if_neg (by simp)]
      · split
        · -- SYNC
          obtain ⟨hF, hC, hR, hW, hV, hret⟩ :=
            syncStep_spec ch clocks (intervalOf ch.tickPerUnit clocks)
          rw [hF, hW, hV]
          refine ⟨?_, rfl, ?_⟩
          · rw [if_neg (by rw [hC]; simp [hret]), if_neg (by rw [hR]; simp)]
          · rw [show ((syncStep ch clocks (intervalOf ch.tickPerUnit clocks)).2 == 1) = false
                  from beq_eq_false_iff_ne.mpr hret, Bool.or_false]
        · split
          · -- STATUS treated as late pause pulse
            refine ⟨?_, rfl, by simp⟩
            rw [if_neg (by simp), if_neg (by simp)]
          · split
            · -- data nibble path
              obtain ⟨hF, hR, hW, hV⟩ := dataStep_spec ch (intervalOf ch.tickPerUnit clocks)
              rw [hF, hW, hV]
              refine ⟨?_, rfl, rfl⟩
              by_cases hc : (dataStep ch (intervalOf ch.tickPerUnit clocks)).2 = 1 ∨
                  ((dataStep ch (intervalOf ch.tickPerUnit clocks)).2 = -1 ∧
                   (dataStep ch (intervalOf ch.tickPerUnit clocks)).1.statistic.CrcErrCnt ≠
                     ch.statistic.CrcErrCnt)
              · rw [if_pos hc, if_pos hc]
              · rw [if_neg hc, if_neg hc, if_neg (by rw [hR]; simp)]
            · -- default: states outside the enumeration
              refine ⟨?_, rfl, by simp⟩
              rw [if_neg (by simp), if_neg (by simp)]

theorem FastChannelDecoder_spec (ch : SentChannel) (clocks : Nat) :
    ((FastChannelDecoder ch clocks).1.statistic.FrameCnt =
      if (FastChannelDecoder ch clocks).2 = 1 ∨ ((FastChannelDecoder ch clocks).2 = -1 ∧
          (FastChannelDecoder ch clocks).1.statistic.CrcErrCnt ≠ ch.statistic.CrcErrCnt)
      then inc32 ch.statistic.FrameCnt
      else if (FastChannelDecoder ch clocks).1.statistic.RestartCnt ≠ ch.statistic.RestartCnt
      then 0 else ch.statistic.FrameCnt) ∧
    (FastChannelDecoder ch clocks).1.statistic.hwOverflowCnt = ch.statistic.hwOverflowCnt ∧
    (FastChannelDecoder ch clocks).1.hasValidFast =
      (ch.hasValidFast || ((FastChannelDecoder ch clocks).2 == 1)) :=
  fastBody_spec (pulseInc ch) clocks

/-- The result of `Decoder` in terms of the result of `FastChannelDecoder`: the
slow-channel postprocessing never touches the fast-channel statistics, the
`hasValidFast` flag or the return value. -/
theorem decoder_proj (ch : SentChannel) (clocks flags : Nat) :
    (Decoder ch clocks flags).2 = (FastChannelDecoder (hwStep ch flags) clocks).2 ∧
    (Decoder ch clocks flags).1.statistic.FrameCnt =
      (FastChannelDecoder (hwStep ch flags) clocks).1.statistic.FrameCnt ∧
    (Decoder ch clocks flags).1.statistic.CrcErrCnt =
      (FastChannelDecoder (hwStep ch flags) clocks).1.statistic.CrcErrCnt ∧
    (Decoder ch clocks flags).1.statistic.RestartCnt =
      (FastChannelDecoder (hwStep ch flags) clocks).1.statistic.RestartCnt ∧
    (Decoder ch clocks flags).1.statistic.hwOverflowCnt =
      (FastChannelDecoder (hwStep ch flags) clocks).1.statistic.hwOverflowCnt ∧
    (Decoder ch clocks flags).1.hasValidFast =
      (FastChannelDecoder (hwStep ch flags) clocks).1.hasValidFast := by
  unfold Decoder
  rcases hfc : FastChannelDecoder (hwStep ch flags) clocks with ⟨ch1, ret⟩
  simp only [hfc]
  by_cases h1 : ret > 0
  · obtain ⟨hF, hC, hR, hW, hV⟩ := slowDecoder_spec ch1
    simp only [if_pos h1]
    refine ⟨?_, ?_, ?_, ?_, ?_, ?_⟩ <;> trivial
  · by_cases h2 : ret < 0
    · obtain ⟨hF, hC, hR, hW, hV⟩ := slowReset_spec ch1
      simp only [if_neg h1, if_pos h2]
      refine ⟨?_, ?_, ?_, ?_, ?_, ?_⟩ <;> trivial
    · simp only [if_neg h1, if_neg h2]
      refine ⟨?_, ?_, ?_, ?_, ?_, ?_⟩ <;> trivial

theorem Decoder_spec (ch : SentChannel) (clocks flags : Nat) :
    ((Decoder ch clocks flags).1.statistic.FrameCnt =
      if (Decoder ch clocks flags).2 = 1 ∨ ((Decoder ch clocks flags).2 = -1 ∧
          (Decoder ch clocks flags).1.statistic.CrcErrCnt ≠ ch.statistic.CrcErrCnt)
      then inc32 ch.statistic.FrameCnt
      else if (Decoder ch clocks flags).1.statistic.RestartCnt ≠ ch.statistic.RestartCnt
      then 0 else ch.statistic.FrameCnt) ∧
    ((Decoder ch clocks flags).1.statistic.hwOverflowCnt =
      if flags &&& SENT_FLAG_HW_OVERFLOW ≠ 0 then inc32 ch.statistic.hwOverflowCnt
      else ch.statistic.hwOverflowCnt) ∧
    (Decoder ch clocks flags).1.hasValidFast =
      (ch.hasValidFast || ((Decoder ch clocks flags).2 == 1)) := by
  obtain ⟨hP2, hPF, hPC, hPR, hPW, hPV⟩ := decoder_proj ch clocks flags
  obtain ⟨hHF, hHC, hHR, hHW, hHV⟩ := hwStep_spec ch flags
  obtain ⟨hfF, hfW, hfV⟩ := FastChannelDecoder_spec (hwStep ch flags) clocks
  refine ⟨?_, ?_, ?_⟩
  · rw [hP2, hPF, hPC, hPR, hfF, hHF, hHC, hHR]
  · rw [hPW, hfW, hHW]
  · rw [hPV, hP2, hfV, hHV]

/-! ## C9: the statistics counters wrap, they do not saturate -/

/-- C9 counterexample: with `hwOverflowCnt = 2^32 − 1`, one more overflow-flagged
pulse wraps the counter to `0` instead of leaving it at `2^32 − 1` (the counters
are plain `uint32_t` with `++`). -/
theorem c9_counterexample :
    chC9.statistic.hwOverflowCnt = U32 - 1 ∧
    (Decoder chC9 168 1).1.statistic.hwOverflowCnt = 0 := ⟨rfl, rfl⟩

/-- C9 (amended): the counters are wrapping 32-bit counters — every increment is
`(c + 1) mod 2^32` — shown through the public entry point for the
hardware-overflow counter, whose increment is unconditional on the flag. -/
theorem c9_counters_wrap (ch : SentChannel) (clocks flags : Nat) :
    (Decoder ch clocks flags).1.statistic.hwOverflowCnt =
      if flags &&& SENT_FLAG_HW_OVERFLOW ≠ 0 then inc32 ch.statistic.hwOverflowCnt
      else ch.statistic.hwOverflowCnt :=
  (Decoder_spec ch clocks flags).2.1

/-! ## C3: what `FrameCnt` counts -/

/-- C3 counterexample: a full frame whose CRC nibble matches no variant gives
`FrameCnt = 1` although no call ever returned `+1` (and no restart occurred). -/
theorem c3_counterexample :
    (runDecoder initChannel c3Pulses).1.statistic.FrameCnt = 1 ∧
    (runDecoder initChannel c3Pulses).2.count 1 = 0 ∧
    (runDecoder initChannel c3Pulses).1.statistic.RestartCnt = 0 := ⟨rfl, rfl, rfl⟩

/-- C3 (amended): `FrameCnt` counts completed frames, not `+1` returns: each
decode call bumps it (mod `2^32`) exactly when it returns `+1` or when it
returns `−1` with `CrcErrCnt` incremented (a completed frame failing CRC);
a restart zeroes it; every other call leaves it unchanged. -/
theorem c3_framecnt_counts_completed_frames (ch : SentChannel) (clocks flags : Nat) :
    (Decoder ch clocks flags).1.statistic.FrameCnt =
      if (Decoder ch clocks flags).2 = 1 ∨ ((Decoder ch clocks flags).2 = -1 ∧
          (Decoder ch clocks flags).1.statistic.CrcErrCnt ≠ ch.statistic.CrcErrCnt)
      then inc32 ch.statistic.FrameCnt
      else if (Decoder ch clocks flags).1.statistic.RestartCnt ≠ ch.statistic.RestartCnt
      then 0 else ch.statistic.FrameCnt :=
  (Decoder_spec ch clocks flags).1

/-! ## C10: `GetMsg` and the "no data" error -/

theorem runDecoder_hasValidFast (ps : List Nat) : ∀ ch : SentChannel,
    ((runDecoder ch ps).1.hasValidFast = true ↔
      ch.hasValidFast = true ∨ 1 ∈ (runDecoder ch ps).2) := by
  induction ps with
  | nil => intro ch; simp [runDecoder]
  | cons c rest ih =>
    intro ch
    simp only [runDecoder]
    rw [ih]
    have hstep := (Decoder_spec ch c 0).2.2
    rw [hstep]
    simp only [List.mem_cons, Bool.or_eq_true, beq_iff_eq]
    constructor
    · rintro (⟨h | h⟩ | h)
      · exact Or.inl h
      · exact Or.inr (Or.inl h.symm)
      · exact Or.inr (Or.inr h)
    · rintro (h | h | h)
      · exact Or.inl (Or.inl h)
      · exact Or.inl (Or.inr h.symm)
      · exact Or.inr h

/-- C10: `GetMsg` reports "no data" (`-1`) exactly when no decode call has
returned `+1` since construction; once one has, it returns `0`; and the value it
writes out is always `rxLast`. -/
theorem c10_get_msg_no_data (ps : List Nat) :
    ((GetMsg (runDecoder initChannel ps).1).1 = -1 ↔ 1 ∉ (runDecoder initChannel ps).2) ∧
    ((GetMsg (runDecoder initChannel ps).1).1 = 0 ↔ 1 ∈ (runDecoder initChannel ps).2) ∧
    (GetMsg (runDecoder initChannel ps).1).2 = (runDecoder initChannel ps).1.rxLast := by
  have h := runDecoder_hasValidFast ps initChannel
  rw [show initChannel.hasValidFast = false from rfl] at h
  simp only [Bool.false_eq_true, false_or] at h
  cases hv : (runDecoder initChannel ps).1.hasValidFast with
  | false =>
    rw [hv] at h
    simp only [Bool.false_eq_true, false_iff] at h
    simp [GetMsg, hv, h]
  | true =>
    rw [hv] at h
    simp only [true_iff] at h
    simp [GetMsg, hv, h]

/-! ## C1: CRC acceptance of a completed frame -/

theorem MsgGetCrc_low (msg : Nat) : MsgGetCrc msg = msg &&& 0xf := by
  simp [MsgGetCrc, MsgGetNibble]

theorem pulseInc_state (ch : SentChannel) : (pulseInc ch).state = ch.state := rfl

theorem pulseInc_tick (ch : SentChannel) : (pulseInc ch).tickPerUnit = ch.tickPerUnit := rfl

/-- Reduction of `FastChannelDecoder` to the data-nibble path when the machine
sits in the CRC state and the pulse converts to a non-negative interval. -/
theorem fast_to_dataStep (ch : SentChannel) (clocks : Nat)
    (hst : ch.state = SENT_STATE_CRC)
    (h0 : 0 ≤ intervalOf ch.tickPerUnit clocks) :
    FastChannelDecoder ch clocks =
      dataStep (pulseInc ch) (intervalOf ch.tickPerUnit clocks) := by
  unfold FastChannelDecoder fastBody
  rw [if_neg (by rw [pulseInc_state, hst]; decide),
      if_neg (by rw [pulseInc_state, hst]; decide),
      if_neg (by rw [pulseInc_tick]; omega),
      if_neg (by rw [pulseInc_state, hst]; decide),
      if_neg (by rw [pulseInc_state, hst]; simp [SENT_STATE_CRC, SENT_STATE_STATUS]),
      if_pos (by rw [pulseInc_state, hst]; exact ⟨by decide, by decide⟩),
      pulseInc_tick]

/-- C1: in the CRC state with a valid nibble interval (a completed 8-nibble
frame), the decoder returns `+1` iff the frame's low nibble equals one of
`crc4`, `crc4_gm`, `crc4_gm_v2` of the frame word, and on `+1` it stores the
frame in `rxLast` and sets `hasValidFast`. -/
theorem c1_crc_acceptance (ch : SentChannel) (clocks : Nat)
    (hst : ch.state = SENT_STATE_CRC)
    (h0 : 0 ≤ intervalOf ch.tickPerUnit clocks)
    (h15 : intervalOf ch.tickPerUnit clocks ≤ 15) :
    ((FastChannelDecoder ch clocks).2 = 1 ↔
      (frameWord ch clocks &&& 0xf = crc4 (frameWord ch clocks) ∨
       frameWord ch clocks &&& 0xf = crc4_gm (frameWord ch clocks) ∨
       frameWord ch clocks &&& 0xf = crc4_gm_v2 (frameWord ch clocks))) ∧
    ((FastChannelDecoder ch clocks).2 = 1 →
      (FastChannelDecoder ch clocks).1.rxLast = frameWord ch clocks ∧
      (FastChannelDecoder ch clocks).1.hasValidFast = true) := by
  rw [fast_to_dataStep ch clocks hst h0]
  have hfw : rxShift (pulseInc ch).rxReg (intervalOf ch.tickPerUnit clocks) =
      frameWord ch clocks := rfl
  unfold dataStep
  rw [if_neg (by simp only [SENT_MAX_INTERVAL]; omega),
      if_neg (by rw [pulseInc_state, hst]; simp),
      hfw, MsgGetCrc_low]
  split
  · rename_i hcrc
    exact ⟨⟨fun _ => hcrc, fun _ => rfl⟩, fun _ => ⟨rfl, rfl⟩⟩
  · rename_i hcrc
    constructor
    · constructor
      · intro h1
        exact absurd h1 (by exact (by decide : ¬ (-1 : Int) = 1))
      · intro hr
        exact absurd hr hcrc
    · intro h1
      exact absurd h1 (by exact (by decide : ¬ (-1 : Int) = 1))

/-- C1 witness: a frame of seven zero nibbles closed by the CRC nibble `5`
(`crc4` of the zero payload) is accepted, stored in `rxLast`, and validates. -/
theorem c1_witness :
    (FastChannelDecoder chW1 51).2 = 1 ∧
    (FastChannelDecoder chW1 51).1.rxLast = 5 ∧
    (FastChannelDecoder chW1 51).1.hasValidFast = true := by
  have h := c1_crc_acceptance chW1 51 rfl (by decide) (by decide)
  have hret : (FastChannelDecoder chW1 51).2 = 1 := h.1.mpr (by decide)
  obtain ⟨hlast, hvf⟩ := h.2 hret
  exact ⟨hret, hlast.trans (by decide), hvf⟩

/-! ## C4: the resync budget in the INIT state -/

/-- C4 counterexample: after calibration the channel sits in INIT with
`tickPerUnit = 3`; feeding 24 consecutive non-sync pulses leaves it in INIT with
`RestartCnt = 0` and the in-state counter at 24 — no restart happened. -/
theorem c4_counterexample :
    (runDecoder initChannel calibPulses).1.state = SENT_STATE_INIT ∧
    (runDecoder initChannel calibPulses).1.tickPerUnit = 3 ∧
    isSyncPulse 3 36 = false ∧
    (runDecoder initChannel c4Pulses).1.state = SENT_STATE_INIT ∧
    (runDecoder initChannel c4Pulses).1.currentStatePulseCounter = 24 ∧
    (runDecoder initChannel c4Pulses).1.statistic.RestartCnt = 0 :=
  ⟨rfl, rfl, by decide, rfl, rfl, rfl⟩

/-- C4 (amended): the INIT resync budget is `3 * SENT_MSG_TOTAL = 27` pulses, not
24: a non-sync pulse in INIT restarts the decoder exactly when the incremented
in-state counter reaches 27, and otherwise just counts. -/
theorem c4_resync_budget (ch : SentChannel) (clocks : Nat)
    (hst : ch.state = SENT_STATE_INIT)
    (hsync : isSyncPulse ch.tickPerUnit clocks = false)
    (hc : ch.currentStatePulseCounter + 1 < U32) :
    (FastChannelDecoder ch clocks).2 = 0 ∧
    (ch.currentStatePulseCounter + 1 ≥ SENT_MSG_TOTAL * 3 →
      (FastChannelDecoder ch clocks).1.state = SENT_STATE_CALIB ∧
      (FastChannelDecoder ch clocks).1.statistic.RestartCnt =
        inc32 ch.statistic.RestartCnt) ∧
    (ch.currentStatePulseCounter + 1 < SENT_MSG_TOTAL * 3 →
      (FastChannelDecoder ch clocks).1.state = SENT_STATE_INIT ∧
      (FastChannelDecoder ch clocks).1.currentStatePulseCounter =
        ch.currentStatePulseCounter + 1 ∧
      (FastChannelDecoder ch clocks).1.statistic.RestartCnt =
        ch.statistic.RestartCnt) := by
  have hred : FastChannelDecoder ch clocks = initStep (pulseInc ch) clocks := by
    unfold FastChannelDecoder fastBody
    rw [if_neg (by rw [pulseInc_state, hst]; decide),
        if_pos (by rw [pulseInc_state, hst])]
  have hinc : inc32 (pulseInc ch).currentStatePulseCounter =
      ch.currentStatePulseCounter + 1 := by
    show (ch.currentStatePulseCounter + 1) % U32 = ch.currentStatePulseCounter + 1
    exact Nat.mod_eq_of_lt hc
  rw [hred]
  unfold initStep
  rw [if_neg (by rw [pulseInc_tick, hsync]; simp), hinc]
  refine ⟨by split <;> rfl, ?_, ?_⟩
  · intro hge
    rw [if_pos hge]
    exact ⟨rfl, rfl⟩
  · intro hlt
    rw [if_neg (by omega)]
    exact ⟨hst, rfl, rfl⟩

/-- C4 witness: in INIT with the in-state counter at 26, one more non-sync pulse
(the 27th) triggers the restart; the return value is still `0`. -/
theorem c4_witness :
    (FastChannelDecoder chW4 36).2 = 0 ∧
    (FastChannelDecoder chW4 36).1.state = SENT_STATE_CALIB ∧
    (FastChannelDecoder chW4 36).1.statistic.RestartCnt = 1 := by
  have h := c4_resync_budget chW4 36 rfl (by decide) (by decide)
  obtain ⟨h1, h2⟩ := h.2.1 (by decide)
  exact ⟨h.1, h1, h2.trans (by decide)⟩

/-! ## C8: `rxReg` across transitions into and out of SYNC -/

/-- C8 counterexample: the pulse that completes a frame moves the machine from
the CRC state into SYNC with `rxReg` holding the full frame `0x01234562 ≠ 0` —
the transition into SYNC does not clear `rxReg`. -/
theorem c8_counterexample :
    (runDecoder initChannel c8PulsesPre).1.state = SENT_STATE_CRC ∧
    (runDecoder initChannel c8Pulses).1.state = SENT_STATE_SYNC ∧
    (runDecoder initChannel c8Pulses).1.rxReg = 0x01234562 ∧
    (runDecoder initChannel c8Pulses).1.rxReg ≠ 0 :=
  ⟨rfl, rfl, rfl, by decide⟩

/-- C8 (amended): `rxReg` is cleared on the transition out of SYNC — when SYNC
recognizes the sync pulse and advances to STATUS — while the transition into
SYNC (frame completion in the CRC state) leaves `rxReg` holding the completed
frame word. -/
theorem c8_rxreg_lifecycle (ch : SentChannel) (clocks : Nat) :
    (ch.state = SENT_STATE_SYNC → isSyncPulse ch.tickPerUnit clocks = true →
      0 ≤ intervalOf ch.tickPerUnit clocks →
      (FastChannelDecoder ch clocks).1.rxReg = 0 ∧
      (FastChannelDecoder ch clocks).1.state = SENT_STATE_STATUS) ∧
    (ch.state = SENT_STATE_CRC → 0 ≤ intervalOf ch.tickPerUnit clocks →
      intervalOf ch.tickPerUnit clocks ≤ 15 →
      (FastChannelDecoder ch clocks).1.state = SENT_STATE_SYNC ∧
      (FastChannelDecoder ch clocks).1.rxReg = frameWord ch clocks) := by
  constructor
  · intro hst hsync h0
    have hred : FastChannelDecoder ch clocks =
        syncStep (pulseInc ch) clocks (intervalOf ch.tickPerUnit clocks) := by
      unfold FastChannelDecoder fastBody
      rw [if_neg (by rw [pulseInc_state, hst]; decide),
          if_neg (by rw [pulseInc_state, hst]; decide),
          if_neg (by rw [pulseInc_tick]; omega),
          if_pos (by rw [pulseInc_state, hst]), pulseInc_tick]
    rw [hred]
    unfold syncStep
    rw [if_pos (by rw [pulseInc_tick, hsync])]
    exact ⟨rfl, rfl⟩
  · intro hst h0 h15
    rw [fast_to_dataStep ch clocks hst h0]
    have hfw : rxShift (pulseInc ch).rxReg (intervalOf ch.tickPerUnit clocks) =
        frameWord ch clocks := rfl
    unfold dataStep
    rw [if_neg (by simp only [SENT_MAX_INTERVAL]; omega),
        if_neg (by rw [pulseInc_state, hst]; simp), hfw]
    split
    · exact ⟨rfl, rfl⟩
    · exact ⟨rfl, rfl⟩

/-- C8 witness: a sync pulse in SYNC clears `rxReg = 0xdead` and advances to
STATUS; a CRC-state pulse moves into SYNC with `rxReg` equal to the frame word. -/
theorem c8_witness :
    ((FastChannelDecoder chW8 168).1.rxReg = 0 ∧
     (FastChannelDecoder chW8 168).1.state = SENT_STATE_STATUS) ∧
    ((FastChannelDecoder chW8c 42).1.state = SENT_STATE_SYNC ∧
     (FastChannelDecoder chW8c 42).1.rxReg = frameWord chW8c 42) :=
  ⟨(c8_rxreg_lifecycle chW8 168).1 rfl (by decide) (by decide),
   (c8_rxreg_lifecycle chW8c 42).2 rfl (by decide) (by decide)⟩

end Sent
